import Mathlib

/-!
Verification of the feedback submission engine of the ruggable-feedback
repository: a shallow embedding of the client-side form logic
(`FeedbackForm` in the unnamed form component, the campaign data model in
`src/types/campaign.ts`, and the per-question voice/text capture component
`VoiceTextQuestion.tsx`), together with theorems settling the specified
properties of the validation gate, the response accumulator, the payload
serializer, the submission coordinator and the question renderer dispatch.

JavaScript semantics is embedded explicitly: nullable values become
`Option`, dynamic response values become a small `JSVal` type with JS
truthiness, and the `{...prev, [k]: v}` object-spread update becomes a
key-unique association-list update.
-/

/-- JavaScript dynamic values as they occur in the `questionResponses`
record (strings from text inputs and choices, numbers from ratings,
booleans from yes/no questions). -/
inductive JSVal where
  | str (s : String)
  | num (n : Int)
  | bool (b : Bool)
  deriving DecidableEq

/-- JavaScript truthiness of a `JSVal` (`""`, `0` and `false` are falsy). -/
def JSVal.truthy : JSVal → Bool
  | .str s => s != ""
  | .num n => n != 0
  | .bool b => b

/-- An opaque finalized audio recording (`Blob` from the audio capture
collaborator); only its identity matters to the form logic. -/
structure Blob where
  id : Nat
  deriving DecidableEq

/-- Rating scale of a question (`Scale` in `src/types/campaign.ts`). -/
structure Scale where
  min : Int
  max : Int
  minLabel : Option String := none
  maxLabel : Option String := none
  deriving DecidableEq

/-- A campaign question (`CampaignQuestion` in `src/types/campaign.ts`).
The `type` field is kept as a string because the renderer dispatch in the
form compares it against string literals at runtime, and unrecognized
values must be representable. -/
structure CampaignQuestion where
  id : String
  type : String
  text : String
  required : Bool
  options : Option (List String) := none
  scale : Option Scale := none
  deriving DecidableEq

/-- Campaign settings. `src/types/campaign.ts` declares `allowVoice` and
`allowText`; the form additionally reads `settings.requireOrderId`, so the
runtime settings object carries all three. -/
structure CampaignSettings where
  allowVoice : Bool
  allowText : Bool
  requireOrderId : Bool
  deriving DecidableEq

/-- A campaign (`Campaign` in `src/types/campaign.ts`); the fields the form
logic never reads (dates, `created_at`) are given inert defaults. -/
structure Campaign where
  id : String
  name : String
  company_id : String
  active : Bool := true
  include_nps : Bool
  nps_question : Option String := none
  include_additional_questions : Bool
  questions : List CampaignQuestion
  settings : CampaignSettings
  deriving DecidableEq

/-- The two feedback channels (`'voice' | 'text'`). -/
inductive FeedbackType where
  | voice
  | text
  deriving DecidableEq

/-- The mutable state of one `FeedbackForm` instance: exactly the
`useState` fields of the component (lines 25-38 of the form source). -/
structure FormState where
  npsScore : Option Int
  audioBlob : Option Blob
  textFeedback : String
  feedbackType : FeedbackType
  questionResponses : List (String × JSVal)
  isSubmitting : Bool
  submitted : Bool
  error : Option String
  consent : Bool
  showOrderInput : Bool
  localOrderId : String
  deriving DecidableEq

/-- The props of `FeedbackForm` that the submission logic reads
(`companyData` is only used for display text and is omitted). -/
structure FormProps where
  orderId : String
  companyId : String
  campaignId : Option String
  campaignData : Option Campaign
  deriving DecidableEq

/-- `campaignData?.settings?.allowVoice` with JS optional chaining:
a missing campaign yields `undefined`, which is falsy. -/
def campAllowVoice : Option Campaign → Bool
  | some c => c.settings.allowVoice
  | none => false

/-- `campaignData?.settings.allowText`. -/
def campAllowText : Option Campaign → Bool
  | some c => c.settings.allowText
  | none => false

/-- `campaignData?.settings.requireOrderId`. -/
def campRequireOrderId : Option Campaign → Bool
  | some c => c.settings.requireOrderId
  | none => false

/-- `campaignData?.include_nps`. -/
def campNps : Option Campaign → Bool
  | some c => c.include_nps
  | none => false

/-- Initial `feedbackType` state:
`campaignData?.settings?.allowVoice ? 'voice' : 'text'` (form line 28-30). -/
def initFeedbackType (campaignData : Option Campaign) : FeedbackType :=
  if campAllowVoice campaignData then .voice else .text

/-- Initial state of the form on mount (the `useState` initializers,
form lines 25-38): everything empty, `showOrderInput = !orderId`,
`localOrderId = orderId`. -/
def initState (p : FormProps) : FormState :=
  { npsScore := none
    audioBlob := none
    textFeedback := ""
    feedbackType := initFeedbackType p.campaignData
    questionResponses := []
    isSubmitting := false
    submitted := false
    error := none
    consent := false
    showOrderInput := p.orderId == ""
    localOrderId := p.orderId }

/-- The object-spread update `{...prev, [k]: v}`: replace the value of an
existing key in place, otherwise append the new key at the end (JS object
keys are unique and keep insertion order). -/
def setKey : List (String × JSVal) → String → JSVal → List (String × JSVal)
  | [], k, v => [(k, v)]
  | p :: rest, k, v => if p.1 = k then (k, v) :: rest else p :: setKey rest k v

/-- `handleQuestionResponse(questionId, value)` (form lines 40-45):
merge one question's answer into `questionResponses`. -/
def handleQuestionResponse (s : FormState) (questionId : String) (value : JSVal) :
    FormState :=
  { s with questionResponses := setKey s.questionResponses questionId value }

/-- Truthiness of `questionResponses[q.id]`: a missing key is `undefined`
(falsy), otherwise JS truthiness of the stored value. -/
def respTruthy (m : List (String × JSVal)) (k : String) : Bool :=
  match m.lookup k with
  | none => false
  | some v => v.truthy

/-- JS truthiness of `npsScore : number | null`. -/
def npsTruthy : Option Int → Bool
  | none => false
  | some n => n != 0

/-- Error message of validation rule 1 (form line 49). -/
def consentMsg : String := "Please accept the consent notice to submit feedback"

/-- Error message of validation rule 2 (form line 54). -/
def npsMsg : String := "Please provide an NPS score"

/-- Error message of validation rule 3 (form line 59). -/
def orderMsg : String := "Please provide an order ID"

/-- Error message of validation rule 4 (form line 70). -/
def requiredMsg : String := "Please answer all required questions"

/-- Generic retryable error surfaced on a failed submission
(form line 113). -/
def submitErrMsg : String := "Failed to submit feedback. Please try again."

/-- `campaignData.questions.some(q => q.required && !questionResponses[q.id])`
(form lines 65-67). -/
def missingRequired (c : Campaign) (m : List (String × JSVal)) : Bool :=
  c.questions.any fun q => q.required && !respTruthy m q.id

/-- Rule 4 guard: `campaignData?.include_additional_questions` and then the
`missingRequired` scan (form lines 64-73). -/
def requiredUnanswered (campaignData : Option Campaign)
    (m : List (String × JSVal)) : Bool :=
  match campaignData with
  | some c => c.include_additional_questions && missingRequired c m
  | none => false

/-- The validation gate: the chain of early returns at the top of
`handleSubmit` (form lines 48-73), evaluated in source order with the
error message the code sets at each return; `none` means validation
passed. -/
def validateGate (campaignData : Option Campaign) (s : FormState) :
    Option String :=
  if !s.consent then some consentMsg
  else if campNps campaignData && !npsTruthy s.npsScore then some npsMsg
  else if s.localOrderId == "" && s.showOrderInput &&
      campRequireOrderId campaignData then some orderMsg
  else if requiredUnanswered campaignData s.questionResponses then
    some requiredMsg
  else none

/-- A value appended to the multipart `FormData` payload: an audio blob or
a string. -/
inductive FormValue where
  | blob (b : Blob)
  | str (s : String)
  deriving DecidableEq

/-- The mutually exclusive feedback body of the payload (form lines 84-88):
`if (feedbackType === 'voice' && audioBlob) append audio;
else if (feedbackType === 'text' && textFeedback) append textFeedback`. -/
def feedbackEntry (s : FormState) : List (String × FormValue) :=
  match s.feedbackType, s.audioBlob with
  | .voice, some b => [("audio", FormValue.blob b)]
  | .voice, none => []
  | .text, _ =>
    if s.textFeedback == "" then [] else
      [("textFeedback", FormValue.str s.textFeedback)]

/-- Stand-in for `JSON.stringify` on a response value (the JSON library is
an external collaborator; only the presence of the serialized field
matters to the specified properties). -/
def JSVal.encode : JSVal → String
  | .str s => s
  | .num n => toString n
  | .bool b => toString b

/-- Stand-in for `JSON.stringify(questionResponses)`. -/
def encodeResponses (m : List (String × JSVal)) : String :=
  String.intercalate "," (m.map fun p => p.1 ++ ":" ++ p.2.encode)

/-- The serialized submission payload (form lines 83-100), in append
order: the feedback body, then `orderId` and `companyId`, the optional
`campaignId`, the optional `npsScore` (appended when the campaign includes
NPS and the score is truthy), and `questionResponses` exactly when the
accumulated record has at least one key. -/
def buildFormData (p : FormProps) (s : FormState) : List (String × FormValue) :=
  feedbackEntry s
    ++ [("orderId", FormValue.str s.localOrderId),
        ("companyId", FormValue.str p.companyId)]
    ++ (match p.campaignId with
        | some cid => [("campaignId", FormValue.str cid)]
        | none => [])
    ++ (if campNps p.campaignData && npsTruthy s.npsScore then
          [("npsScore", FormValue.str (toString (s.npsScore.getD 0)))]
        else [])
    ++ (if s.questionResponses.length > 0 then
          [("questionResponses",
            FormValue.str (encodeResponses s.questionResponses))]
        else [])

/-- Outcome of the `fetch('/api/save-feedback')` call: a success response,
a non-success HTTP response (`!response.ok`, which the code turns into a
thrown error), or a transport failure (the fetch promise rejects). -/
inductive NetResult where
  | success
  | httpError
  | transportError
  deriving DecidableEq

/-- The world of one submission flow: the form state, the in-flight
request (if any) with its payload, and a count of network calls issued. -/
structure World where
  form : FormState
  pending : Option (List (String × FormValue))
  networkCalls : Nat
  deriving DecidableEq

/-- A click of the submit button (form lines 309-317 and 47-105): the
button is `disabled={isSubmitting}`, so a click while a submission is in
flight dispatches nothing; otherwise `handleSubmit` runs: on a validation
failure it sets the error and returns without any network call, on success
it sets `isSubmitting`, clears the error, builds the payload and issues
the fetch (which stays pending until `networkReturn`). -/
def clickSubmit (p : FormProps) (w : World) : World :=
  if w.form.isSubmitting then w
  else
    match validateGate p.campaignData w.form with
    | some msg => { w with form := { w.form with error := some msg } }
    | none =>
      let s := { w.form with isSubmitting := true, error := none }
      { form := s
        pending := some (buildFormData p s)
        networkCalls := w.networkCalls + 1 }

/-- Resolution of the in-flight fetch (form lines 102-117): a success
response sets `submitted`; a non-success response throws and a transport
failure rejects, and both land in the same `catch`, which sets the generic
retryable error; the `finally` clears `isSubmitting` in every case. -/
def networkReturn (r : NetResult) (w : World) : World :=
  match w.pending with
  | none => w
  | some _ =>
    match r with
    | .success =>
      { w with
        form := { w.form with submitted := true, isSubmitting := false }
        pending := none }
    | .httpError =>
      { w with
        form := { w.form with error := some submitErrMsg, isSubmitting := false }
        pending := none }
    | .transportError =>
      { w with
        form := { w.form with error := some submitErrMsg, isSubmitting := false }
        pending := none }

/-- One user edit on the form during the editing phase: the `setState`
handler of a single field, or `handleQuestionResponse` for one question. -/
inductive FormEvent where
  | question (questionId : String) (value : JSVal)
  | setNps (n : Option Int)
  | setText (t : String)
  | setAudio (b : Option Blob)
  | setMode (t : FeedbackType)
  | setConsent (b : Bool)
  | setOrderId (oid : String)
  deriving DecidableEq

/-- Apply one edit event to the form state, exactly as the corresponding
handler in the source does. -/
def applyEvent (s : FormState) : FormEvent → FormState
  | .question qid v => handleQuestionResponse s qid v
  | .setNps n => { s with npsScore := n }
  | .setText t => { s with textFeedback := t }
  | .setAudio b => { s with audioBlob := b }
  | .setMode t => { s with feedbackType := t }
  | .setConsent b => { s with consent := b }
  | .setOrderId oid => { s with localOrderId := oid }

/-- Apply a sequence of edit events in order. -/
def applyEvents (s : FormState) (evts : List FormEvent) : FormState :=
  evts.foldl applyEvent s

/-- The step of the last-written-value scan for one question id. -/
def lastStep (qid : String) (acc : Option JSVal) : FormEvent → Option JSVal
  | .question q v => if q = qid then some v else acc
  | _ => acc

/-- The last value written for `qid` by a sequence of events (`none` when
no event in the sequence updates that question). -/
def lastWritten (evts : List FormEvent) (qid : String) : Option JSVal :=
  evts.foldl (lastStep qid) none

/-- The input widget kinds the question renderer dispatch can produce. -/
inductive RenderedInput where
  | textInput
  | ratingInput
  | multipleChoiceInput
  | yesNoInput
  deriving DecidableEq

/-- The renderer dispatch for one question (form lines 197-224): four
guards compare `question.type` against distinct string literals, so at
most one input is produced; any other type value produces no input. -/
def renderQuestionInput (q : CampaignQuestion) : Option RenderedInput :=
  if q.type == "text" then some .textInput
  else if q.type == "rating" then some .ratingInput
  else if q.type == "multiple_choice" then some .multipleChoiceInput
  else if q.type == "yes_no" then some .yesNoInput
  else none

/-- One rendered question block (form lines 190-226): the label with the
question text, the required marker, and the dispatched input (absent for
an unrecognized type). -/
structure QuestionBlock where
  label : String
  requiredMark : Bool
  input : Option RenderedInput
  deriving DecidableEq

/-- The additional-questions section (form lines 187-229): rendered only
when the campaign includes additional questions and has at least one;
every question of the list yields its block, in order. -/
def renderQuestionBlocks (c : Campaign) : List QuestionBlock :=
  if c.include_additional_questions && c.questions.length > 0 then
    c.questions.map fun q =>
      { label := q.text, requiredMark := q.required
        input := renderQuestionInput q }
  else []

/-- Modelled from the spec: the internal state of the `AudioRecorder`
component, whose source (`src/components/AudioRecorder.tsx`) is not under
`src/`; the spec's capture state machine has states idle, recording and
recorded (playback is local to the finalized recording and irrelevant
here). -/
inductive RecorderState where
  | idle
  | recording
  | recorded
  deriving DecidableEq

/-- The form state together with the voice sub-engine's state. -/
structure VoiceWorld where
  form : FormState
  recorder : RecorderState
  deriving DecidableEq

/-- Whether the `AudioRecorder` is rendered (form line 264): only in voice
mode and only when the campaign allows voice. -/
def recorderMounted (campaignData : Option Campaign) (s : FormState) : Bool :=
  s.feedbackType == FeedbackType.voice && campAllowVoice campaignData

/-- A click on a channel tab (form lines 237-261): the visible handler is
only `setFeedbackType(t)`. Modelled from the spec: the `AudioRecorder`
source is not under `src/`, so its teardown is taken from the spec's
capture state machine — when the switch unmounts the recorder while it is
recording, the capture is force-stopped with no finalized blob, the
completion callback reports an absent recording (`setAudioBlob(null)`),
and the sub-engine ends idle; when it is not recording, unmounting simply
discards its state. -/
def switchFeedbackType (campaignData : Option Campaign) (w : VoiceWorld)
    (t : FeedbackType) : VoiceWorld :=
  let form := { w.form with feedbackType := t }
  if recorderMounted campaignData form then
    { form := form, recorder := w.recorder }
  else if w.recorder == RecorderState.recording then
    { form := { form with audioBlob := none }, recorder := .idle }
  else
    { form := form, recorder := .idle }

/-- The per-question props read by `VoiceTextQuestion`'s channel logic
(the component types its `question` prop as `any` and reads the
`allowVoice` and `allowText` flags). -/
structure VTQuestion where
  allowVoice : Bool
  allowText : Bool
  deriving DecidableEq

/-- Initial `responseType` state of `VoiceTextQuestion` (lines 28-30):
`question.allowVoice ? 'voice' : 'text'`. -/
def initResponseType (q : VTQuestion) : FeedbackType :=
  if q.allowVoice then .voice else .text

/-! Concrete fixtures used by the counterexamples and witnesses below. -/

/-- A fresh form state with every field empty: no score, no blob, empty
text, text mode, no responses, no consent, order id pre-filled empty. -/
def baseState : FormState :=
  { npsScore := none
    audioBlob := none
    textFeedback := ""
    feedbackType := .text
    questionResponses := []
    isSubmitting := false
    submitted := false
    error := none
    consent := false
    showOrderInput := false
    localOrderId := "" }

/-- A campaign with NPS enabled and nothing else. -/
def campWithNps : Campaign :=
  { id := "camp-nps", name := "NPS campaign", company_id := "co"
    include_nps := true
    include_additional_questions := false
    questions := []
    settings := { allowVoice := true, allowText := true, requireOrderId := false } }

/-- Props mounting `campWithNps` with a pre-supplied order id. -/
def propsWithNps : FormProps :=
  { orderId := "ORD-1", companyId := "co", campaignId := none
    campaignData := some campWithNps }

/-- Session on `campWithNps`: no consent, no NPS score. -/
def stateNoConsentNoNps : FormState := { baseState with localOrderId := "ORD-1" }

/-- World wrapping `stateNoConsentNoNps`. -/
def worldNoConsentNoNps : World :=
  { form := stateNoConsentNoNps, pending := none, networkCalls := 0 }

/-- Session on `campWithNps`: consented but no NPS score. -/
def stateConsentNoNps : FormState := { stateNoConsentNoNps with consent := true }

/-- World wrapping `stateConsentNoNps`. -/
def worldConsentNoNps : World :=
  { form := stateConsentNoNps, pending := none, networkCalls := 0 }

/-- A campaign with no NPS, no additional questions, order id optional. -/
def campPlain : Campaign :=
  { id := "camp-plain", name := "Plain campaign", company_id := "co"
    include_nps := false
    include_additional_questions := false
    questions := []
    settings := { allowVoice := true, allowText := true, requireOrderId := false } }

/-- Props mounting `campPlain`. -/
def propsPlain : FormProps :=
  { orderId := "ORD-1", companyId := "co", campaignId := none
    campaignData := some campPlain }

/-- A consented session on `campPlain` in text mode with empty text: it
passes validation, yet the payload carries neither feedback body. -/
def stateEmptyText : FormState :=
  { baseState with consent := true, localOrderId := "ORD-1" }

/-- The same session with non-empty text feedback. -/
def stateWithText : FormState := { stateEmptyText with textFeedback := "Great!" }

/-- World wrapping `stateEmptyText` (a valid session, ready to submit). -/
def worldValid : World :=
  { form := stateEmptyText, pending := none, networkCalls := 0 }

/-- A world with a submission in flight. -/
def worldInFlight : World :=
  { form := { stateWithText with isSubmitting := true }
    pending := some (buildFormData propsPlain { stateWithText with isSubmitting := true })
    networkCalls := 1 }

/-- A campaign that requires an order id. -/
def campRequireOrder : Campaign :=
  { id := "camp-order", name := "Order campaign", company_id := "co"
    include_nps := false
    include_additional_questions := false
    questions := []
    settings := { allowVoice := true, allowText := true, requireOrderId := true } }

/-- Session on `campRequireOrder`: the order-id field is user-editable
and empty, and consent was not given. -/
def stateNoConsentNoOrder : FormState := { baseState with showOrderInput := true }

/-- The same session with consent given. -/
def stateConsentNoOrder : FormState :=
  { stateNoConsentNoOrder with consent := true }

/-- A required text question. -/
def qTextReq : CampaignQuestion :=
  { id := "q1", type := "text", text := "How was it?", required := true }

/-- A required question of an unrecognized type. -/
def qSliderReq : CampaignQuestion :=
  { id := "q2", type := "slider", text := "Slide to rate", required := true }

/-- A non-required question of an unrecognized type. -/
def qSliderOpt : CampaignQuestion :=
  { id := "q2", type := "slider", text := "Slide to rate", required := false }

/-- A campaign whose question list contains a required question of an
unrecognized type next to a required text question. -/
def campUnknownReq : Campaign :=
  { id := "camp-unk", name := "Unknown type", company_id := "co"
    include_nps := false
    include_additional_questions := true
    questions := [qTextReq, qSliderReq]
    settings := { allowVoice := true, allowText := true, requireOrderId := false } }

/-- The same campaign with the unrecognized-type question not required. -/
def campUnknownOpt : Campaign :=
  { campUnknownReq with questions := [qTextReq, qSliderOpt] }

/-- A consented session that has answered every question for which the
renderer produced an input (only `q1`; `q2` has no input to answer). -/
def stateAnsweredKnown : FormState :=
  { baseState with
    consent := true
    questionResponses := [("q1", JSVal.str "fine")] }

/-- A voice-mode session with a recording in progress. -/
def worldRecording : VoiceWorld :=
  { form := { baseState with feedbackType := .voice }
    recorder := .recording }

/-- A question allowing both channels for `VoiceTextQuestion`. -/
def vtqBoth : VTQuestion := { allowVoice := true, allowText := true }

/-- A sample interleaved edit sequence: two writes to `q1` with a write to
`q2` and top-level edits in between. -/
def evtsSample : List FormEvent :=
  [FormEvent.question "q1" (JSVal.str "a"),
   FormEvent.setNps (some 5),
   FormEvent.question "q2" (JSVal.str "b"),
   FormEvent.setText "hello",
   FormEvent.question "q1" (JSVal.str "c")]

/-! Helper lemmas about the accumulator update and payload lookups. -/

/-- Pointwise characterization of the object-spread update: the updated
key reads the new value, every other key is untouched. -/
theorem setKey_lookup (m : List (String × JSVal)) (k : String) (v : JSVal)
    (k' : String) :
    (setKey m k v).lookup k' = if k' = k then some v else m.lookup k' := by
  induction m with
  | nil =>
    by_cases h : k' = k
    · simp [setKey, List.lookup, h]
    · have hb : (k' == k) = false := beq_eq_false_iff_ne.mpr h
      simp [setKey, List.lookup, h, hb]
  | cons p rest ih =>
    obtain ⟨a, b⟩ := p
    by_cases hp : a = k
    · subst hp
      by_cases h : k' = a
      · simp [setKey, List.lookup, h]
      · have hb : (k' == a) = false := beq_eq_false_iff_ne.mpr h
        simp [setKey, List.lookup, h, hb]
    · have hpb : ¬ (a, b).1 = k := hp
      by_cases h : k' = a
      · subst h
        have hk : ¬ k' = k := fun hh => hp hh
        simp [setKey, List.lookup, hpb, hk]
      · have hb : (k' == a) = false := beq_eq_false_iff_ne.mpr h
        simp [setKey, List.lookup, hpb, hb, ih]

/-- One edit event's effect on the stored response of a fixed question id:
a write to that id installs the new value, every other event leaves it. -/
theorem applyEvent_lookup (s : FormState) (e : FormEvent) (qid : String) :
    (applyEvent s e).questionResponses.lookup qid
      = lastStep qid (s.questionResponses.lookup qid) e := by
  cases e with
  | question q v =>
    by_cases h : qid = q
    · subst h
      simp [applyEvent, handleQuestionResponse, setKey_lookup, lastStep]
    · have h2 : ¬ q = qid := fun hh => h hh.symm
      simp [applyEvent, handleQuestionResponse, setKey_lookup, lastStep, h, h2]
  | setNps n => rfl
  | setText t => rfl
  | setAudio b => rfl
  | setMode t => rfl
  | setConsent b => rfl
  | setOrderId oid => rfl

/-- Folding a whole edit sequence: the stored response of `qid` is the
fold of `lastStep` over the sequence, seeded with the current value. -/
theorem applyEvents_lookup (evts : List FormEvent) (s : FormState)
    (qid : String) :
    (applyEvents s evts).questionResponses.lookup qid
      = evts.foldl (lastStep qid) (s.questionResponses.lookup qid) := by
  induction evts generalizing s with
  | nil => rfl
  | cons e evts ih =>
    have hstep := ih (applyEvent s e)
    simp only [applyEvents, List.foldl_cons] at hstep ⊢
    rw [hstep, applyEvent_lookup]

/-- The `lastStep` fold from an arbitrary seed equals the fold from `none`
when the latter produced a value, and the seed otherwise. -/
theorem foldl_lastStep_absorb (evts : List FormEvent) (qid : String)
    (init : Option JSVal) :
    evts.foldl (lastStep qid) init
      = match evts.foldl (lastStep qid) none with
        | some w => some w
        | none => init := by
  induction evts generalizing init with
  | nil => rfl
  | cons e evts ih =>
    simp only [List.foldl_cons]
    rw [ih (lastStep qid init e), ih (lastStep qid none e)]
    cases hF : evts.foldl (lastStep qid) none with
    | some w => simp
    | none =>
      cases e with
      | question q v => by_cases h : q = qid <;> simp [lastStep, h]
      | setNps n => simp [lastStep]
      | setText t => simp [lastStep]
      | setAudio b => simp [lastStep]
      | setMode t => simp [lastStep]
      | setConsent b => simp [lastStep]
      | setOrderId oid => simp [lastStep]

/-- C7: updating a question response replaces only that question's key in
`questionResponses` and preserves every other key and every top-level
field, and over any sequence of per-question updates interleaved with
top-level field updates the accumulator ends with exactly the last value
written per question id. -/
theorem handleQuestionResponse_last_write (s : FormState) (qid k : String)
    (v : JSVal) (evts : List FormEvent) :
    (handleQuestionResponse s qid v).questionResponses.lookup qid = some v
  ∧ (k ≠ qid → (handleQuestionResponse s qid v).questionResponses.lookup k
      = s.questionResponses.lookup k)
  ∧ (handleQuestionResponse s qid v).npsScore = s.npsScore
  ∧ (handleQuestionResponse s qid v).textFeedback = s.textFeedback
  ∧ (handleQuestionResponse s qid v).audioBlob = s.audioBlob
  ∧ (handleQuestionResponse s qid v).feedbackType = s.feedbackType
  ∧ (handleQuestionResponse s qid v).consent = s.consent
  ∧ (handleQuestionResponse s qid v).localOrderId = s.localOrderId
  ∧ ((applyEvents s evts).questionResponses.lookup qid
      = match lastWritten evts qid with
        | some w => some w
        | none => s.questionResponses.lookup qid) := by
  refine ⟨?_, ?_, rfl, rfl, rfl, rfl, rfl, rfl, ?_⟩
  · simp [handleQuestionResponse, setKey_lookup]
  · intro hk
    simp [handleQuestionResponse, setKey_lookup, hk]
  · rw [applyEvents_lookup]
    simp only [lastWritten]
    exact foldl_lastStep_absorb evts qid _

/-- Witness for C7 at a concrete interleaved edit sequence: an update to
`q1` leaves `q2` untouched, and after `evtsSample` the accumulator holds
the last value written to `q1`. -/
theorem handleQuestionResponse_last_write_witness :
    (handleQuestionResponse baseState "q1" (JSVal.str "x")).questionResponses.lookup "q2"
      = baseState.questionResponses.lookup "q2"
  ∧ (applyEvents baseState evtsSample).questionResponses.lookup "q1"
      = some (JSVal.str "c") := by
  refine ⟨(handleQuestionResponse_last_write baseState "q1" "q2" (JSVal.str "x")
      evtsSample).2.1 (by decide), ?_⟩
  rw [(handleQuestionResponse_last_write baseState "q1" "q2" (JSVal.str "x")
      evtsSample).2.2.2.2.2.2.2.2]
  decide

/-- The four validation messages and the submit error are pairwise
distinct strings; the inequalities needed below. -/
theorem consentMsg_ne_requiredMsg : consentMsg ≠ requiredMsg := by decide

/-- `npsMsg` differs from `requiredMsg`. -/
theorem npsMsg_ne_requiredMsg : npsMsg ≠ requiredMsg := by decide

/-- `orderMsg` differs from `requiredMsg`. -/
theorem orderMsg_ne_requiredMsg : orderMsg ≠ requiredMsg := by decide

/-- `consentMsg` differs from `orderMsg`. -/
theorem consentMsg_ne_orderMsg : consentMsg ≠ orderMsg := by decide

/-- `npsMsg` differs from `orderMsg`. -/
theorem npsMsg_ne_orderMsg : npsMsg ≠ orderMsg := by decide

/-- `requiredMsg` differs from `orderMsg`. -/
theorem requiredMsg_ne_orderMsg : requiredMsg ≠ orderMsg := by decide

/-- C1: the validation gate evaluates its rules in the fixed order
consent, NPS score, order id, required questions, short-circuiting on the
first failure, so at most one reason (an `Option`) is reported; in
particular a session failing both the consent rule and the
required-questions rule always reports the consent reason. -/
theorem validateGate_fixed_order (c : Option Campaign) (s : FormState) :
    (s.consent = false → requiredUnanswered c s.questionResponses = true →
      validateGate c s = some consentMsg)
  ∧ (s.consent = false → validateGate c s = some consentMsg)
  ∧ (s.consent = true → (campNps c && !npsTruthy s.npsScore) = true →
      validateGate c s = some npsMsg)
  ∧ (s.consent = true → (campNps c && !npsTruthy s.npsScore) = false →
      (s.localOrderId == "" && s.showOrderInput && campRequireOrderId c) = true →
      validateGate c s = some orderMsg)
  ∧ (s.consent = true → (campNps c && !npsTruthy s.npsScore) = false →
      (s.localOrderId == "" && s.showOrderInput && campRequireOrderId c) = false →
      requiredUnanswered c s.questionResponses = true →
      validateGate c s = some requiredMsg)
  ∧ (s.consent = true → (campNps c && !npsTruthy s.npsScore) = false →
      (s.localOrderId == "" && s.showOrderInput && campRequireOrderId c) = false →
      requiredUnanswered c s.questionResponses = false →
      validateGate c s = none) := by
  refine ⟨?_, ?_, ?_, ?_, ?_, ?_⟩ <;> intros <;> simp [validateGate, *]

/-- Witness for C1: a concrete session with consent not given and a
required question unanswered reports the consent reason. -/
theorem validateGate_fixed_order_witness :
    validateGate (some campUnknownReq) baseState = some consentMsg :=
  (validateGate_fixed_order (some campUnknownReq) baseState).1
    (by decide) (by decide)

/-- C5: switching the feedback mode from voice to text while a recording
is in progress forces a stop, so the voice sub-engine ends idle (not
recording) and the session's `voiceBlob` is absent when the switch
completes (the `AudioRecorder` teardown is modelled from the spec, its
source not being under `src/`). -/
theorem switchFeedbackType_stops_recording (campaignData : Option Campaign)
    (w : VoiceWorld) (hr : w.recorder = RecorderState.recording) :
    (switchFeedbackType campaignData w .text).recorder = RecorderState.idle
  ∧ (switchFeedbackType campaignData w .text).form.audioBlob = none
  ∧ (switchFeedbackType campaignData w .text).form.feedbackType = .text := by
  simp [switchFeedbackType, recorderMounted, hr]

/-- Witness for C5 at a concrete recording session. -/
theorem switchFeedbackType_stops_recording_witness :
    (switchFeedbackType (some campPlain) worldRecording .text).recorder
      = RecorderState.idle
  ∧ (switchFeedbackType (some campPlain) worldRecording .text).form.audioBlob
      = none
  ∧ (switchFeedbackType (some campPlain) worldRecording .text).form.feedbackType
      = .text :=
  switchFeedbackType_stops_recording (some campPlain) worldRecording (by decide)

/-- C10: the initial feedback mode is voice exactly when the campaign
settings allow voice (a missing campaign counts as not allowing voice) and
text otherwise, and `VoiceTextQuestion` defaults its channel the same way
from the question's `allowVoice` flag. -/
theorem initFeedbackType_allowVoice (campaignData : Option Campaign)
    (q : VTQuestion) :
    (initFeedbackType campaignData = .voice ↔ campAllowVoice campaignData = true)
  ∧ (initFeedbackType campaignData = .text ↔ campAllowVoice campaignData = false)
  ∧ (initResponseType q = .voice ↔ q.allowVoice = true)
  ∧ (initResponseType q = .text ↔ q.allowVoice = false) := by
  cases hb : campAllowVoice campaignData <;> cases hq : q.allowVoice <;>
    simp [initFeedbackType, initResponseType, hb, hq]

/-- Witness for C10 at a voice-allowing campaign and question. -/
theorem initFeedbackType_allowVoice_witness :
    initFeedbackType (some campPlain) = .voice
  ∧ initResponseType vtqBoth = .voice :=
  ⟨((initFeedbackType_allowVoice (some campPlain) vtqBoth).1).mpr (by decide),
   ((initFeedbackType_allowVoice (some campPlain) vtqBoth).2.2.1).mpr (by decide)⟩

/-- C4: for a valid session a second submit invocation issued while the
first is still in the submitting state is ignored, so two submit clicks in
immediate succession issue exactly one network call. -/
theorem clickSubmit_single_network_call (p : FormProps) (w : World)
    (hv : validateGate p.campaignData w.form = none)
    (hi : w.form.isSubmitting = false) :
    (clickSubmit p w).networkCalls = w.networkCalls + 1
  ∧ clickSubmit p (clickSubmit p w) = clickSubmit p w
  ∧ (clickSubmit p (clickSubmit p w)).networkCalls = w.networkCalls + 1 := by
  have hw : clickSubmit p w =
      { form := { w.form with isSubmitting := true, error := none }
        pending := some (buildFormData p
          { w.form with isSubmitting := true, error := none })
        networkCalls := w.networkCalls + 1 } := by
    simp [clickSubmit, hi, hv]
  have h2 : clickSubmit p (clickSubmit p w) = clickSubmit p w := by
    rw [hw]
    simp [clickSubmit]
  exact ⟨by rw [hw], h2, by rw [h2, hw]⟩

/-- Witness for C4: two immediate submit clicks on a concrete valid
session count exactly one network call. -/
theorem clickSubmit_single_network_call_witness :
    (clickSubmit propsPlain (clickSubmit propsPlain worldValid)).networkCalls
      = worldValid.networkCalls + 1 :=
  (clickSubmit_single_network_call propsPlain worldValid
    (by decide) (by decide)).2.2

/-- C6: when the submission network call returns a non-success response or
fails in transport, the session surfaces the generic retryable error, is
no longer submitting and not submitted (the failed state), and every
captured field is left unchanged so the user can retry. -/
theorem networkReturn_failure_preserves (w : World) (r : NetResult)
    (pl : List (String × FormValue)) (hp : w.pending = some pl)
    (hr : r ≠ NetResult.success) (hs : w.form.submitted = false) :
    (networkReturn r w).form.error = some submitErrMsg
  ∧ (networkReturn r w).form.isSubmitting = false
  ∧ (networkReturn r w).form.submitted = false
  ∧ (networkReturn r w).form.npsScore = w.form.npsScore
  ∧ (networkReturn r w).form.audioBlob = w.form.audioBlob
  ∧ (networkReturn r w).form.textFeedback = w.form.textFeedback
  ∧ (networkReturn r w).form.questionResponses = w.form.questionResponses
  ∧ (networkReturn r w).form.consent = w.form.consent
  ∧ (networkReturn r w).form.localOrderId = w.form.localOrderId
  ∧ (networkReturn r w).pending = none := by
  cases r with
  | success => exact absurd rfl hr
  | httpError => simp [networkReturn, hp, hs]
  | transportError => simp [networkReturn, hp, hs]

/-- Witness for C6 at a concrete in-flight submission failing with a
non-success response: the generic error is surfaced and the captured text
feedback survives. -/
theorem networkReturn_failure_preserves_witness :
    (networkReturn NetResult.httpError worldInFlight).form.error
      = some submitErrMsg
  ∧ (networkReturn NetResult.httpError worldInFlight).form.textFeedback
      = worldInFlight.form.textFeedback :=
  have h := networkReturn_failure_preserves worldInFlight NetResult.httpError
    (buildFormData propsPlain { stateWithText with isSubmitting := true })
    rfl (by decide) (by decide)
  ⟨h.1, h.2.2.2.2.2.1⟩

/-- C2 counterexample: on a campaign with NPS enabled, submitting with the
NPS score absent but consent not given reports the consent reason, not the
"NPS score required" reason the claim states. -/
theorem clickSubmit_nps_counterexample :
    campWithNps.include_nps = true
  ∧ stateNoConsentNoNps.npsScore = none
  ∧ (clickSubmit propsWithNps worldNoConsentNoNps).form.error = some consentMsg
  ∧ consentMsg ≠ npsMsg
  ∧ (clickSubmit propsWithNps worldNoConsentNoNps).networkCalls = 0 := by
  decide

/-- C2 (amended): for every campaign with NPS enabled, invoking submit
with the NPS score absent — provided consent has been given, since the
consent rule is checked first — sets the "NPS score required" reason,
performs no network call, and leaves the session in the editing state. -/
theorem clickSubmit_nps_required (p : FormProps) (w : World)
    (hc : w.form.consent = true) (hn : campNps p.campaignData = true)
    (hs : w.form.npsScore = none) (hi : w.form.isSubmitting = false) :
    (clickSubmit p w).form.error = some npsMsg
  ∧ (clickSubmit p w).networkCalls = w.networkCalls
  ∧ (clickSubmit p w).pending = w.pending
  ∧ (clickSubmit p w).form.isSubmitting = false
  ∧ (clickSubmit p w).form.submitted = w.form.submitted := by
  have hv : validateGate p.campaignData w.form = some npsMsg := by
    simp [validateGate, hc, hn, hs, npsTruthy]
  simp [clickSubmit, hi, hv]

/-- Witness for C2 (amended) at a concrete consented session with no NPS
score. -/
theorem clickSubmit_nps_required_witness :
    (clickSubmit propsWithNps worldConsentNoNps).form.error = some npsMsg
  ∧ (clickSubmit propsWithNps worldConsentNoNps).networkCalls
      = worldConsentNoNps.networkCalls :=
  have h := clickSubmit_nps_required propsWithNps worldConsentNoNps
    (by decide) (by decide) (by decide) (by decide)
  ⟨h.1, h.2.1⟩

/-- C8 counterexample: with `requireOrderId` set, a user-editable empty
order id and consent not given, validation reports the consent reason, not
the "order ID required" reason the claim states. -/
theorem validateGate_order_counterexample :
    campRequireOrder.settings.requireOrderId = true
  ∧ stateNoConsentNoOrder.showOrderInput = true
  ∧ stateNoConsentNoOrder.localOrderId = ""
  ∧ validateGate (some campRequireOrder) stateNoConsentNoOrder = some consentMsg
  ∧ consentMsg ≠ orderMsg := by
  decide

/-- C8 (amended): when the campaign requires an order id and the order-id
field is user-editable, submitting with an empty order id — provided the
earlier consent and NPS rules pass — fails with the "order ID required"
reason; when the order id is not required or not user-editable, the order
id never blocks validation (the gate's result is independent of it). -/
theorem validateGate_orderId_rule (c : Option Campaign) (s : FormState) :
    (s.consent = true → (campNps c && !npsTruthy s.npsScore) = false →
      campRequireOrderId c = true → s.showOrderInput = true →
      s.localOrderId = "" → validateGate c s = some orderMsg)
  ∧ ((campRequireOrderId c = false ∨ s.showOrderInput = false) →
      ∀ oid, validateGate c { s with localOrderId := oid } = validateGate c s) := by
  constructor
  · intro hc hn hr hso ho
    simp [validateGate, hc, hn, hr, hso, ho]
  · intro h oid
    rcases h with h | h <;> simp [validateGate, h]

/-- Witness for C8 (amended): a concrete consented session with a
required, editable, empty order id gets the order-id reason, and on a
campaign not requiring the order id the gate ignores the order id. -/
theorem validateGate_orderId_rule_witness :
    validateGate (some campRequireOrder) stateConsentNoOrder = some orderMsg
  ∧ validateGate (some campPlain) { stateEmptyText with localOrderId := "X" }
      = validateGate (some campPlain) stateEmptyText :=
  ⟨(validateGate_orderId_rule (some campRequireOrder) stateConsentNoOrder).1
      (by decide) (by decide) (by decide) (by decide) (by decide),
   (validateGate_orderId_rule (some campPlain) stateEmptyText).2
      (by decide) "X"⟩

/-- C3 counterexample: a session that passes validation in text mode with
empty text feedback produces a payload containing neither the audio field
nor the textFeedback field, so "exactly one of the two" fails. -/
theorem buildFormData_counterexample :
    validateGate propsPlain.campaignData stateEmptyText = none
  ∧ (buildFormData propsPlain stateEmptyText).lookup "audio" = none
  ∧ (buildFormData propsPlain stateEmptyText).lookup "textFeedback" = none := by
  decide

/-- C3 (amended): for every session passing validation the payload
contains the audio field exactly when the mode is voice and a blob is
present, the textFeedback field exactly when the mode is text and the text
is non-empty — hence at most one of the two and never both (both may be
absent) — and the questionResponses field exactly when the accumulated
response mapping is non-empty. -/
theorem buildFormData_exclusive (p : FormProps) (s : FormState)
    (_hv : validateGate p.campaignData s = none) :
    (((buildFormData p s).lookup "audio").isSome = true
        ↔ s.feedbackType = FeedbackType.voice ∧ s.audioBlob.isSome = true)
  ∧ (((buildFormData p s).lookup "textFeedback").isSome = true
        ↔ s.feedbackType = FeedbackType.text ∧ s.textFeedback ≠ "")
  ∧ ¬(((buildFormData p s).lookup "audio").isSome = true
        ∧ ((buildFormData p s).lookup "textFeedback").isSome = true)
  ∧ (((buildFormData p s).lookup "questionResponses").isSome = true
        ↔ s.questionResponses ≠ []) := by
  cases hf : s.feedbackType <;> cases ha : s.audioBlob <;>
    by_cases ht : s.textFeedback = "" <;> cases hq : s.questionResponses <;>
    cases hcid : p.campaignId <;>
    by_cases hn : (campNps p.campaignData && npsTruthy s.npsScore) = true <;>
    simp [buildFormData, feedbackEntry, List.lookup, beq_iff_eq,
      hf, ha, ht, hq, hcid, hn]

/-- Witness for C3 (amended) at a concrete valid text-mode session with
non-empty text: the textFeedback field is present. -/
theorem buildFormData_exclusive_witness :
    ((buildFormData propsPlain stateWithText).lookup "textFeedback").isSome
      = true :=
  ((buildFormData_exclusive propsPlain stateWithText (by decide)).2.1).mpr
    (by decide)

/-- C9 counterexample: a required question of an unrecognized type gets no
input from the dispatch, and even with every rendered question answered
the form is not submittable — validation reports the required-questions
reason — so "remains submittable" fails for required unrecognized
questions. -/
theorem renderUnknown_counterexample :
    renderQuestionInput qSliderReq = none
  ∧ respTruthy stateAnsweredKnown.questionResponses qTextReq.id = true
  ∧ validateGate (some campUnknownReq) stateAnsweredKnown = some requiredMsg := by
  decide

/-- C9 (amended): a question whose type is not one of text, rating,
multiple_choice, yes_no gets no input from the dispatch; the rest of the
form still renders (every question of the campaign yields its block, in
order); and whenever every required question carries a truthy answer the
gate never reports the required-questions reason — so an unrecognized-type
question blocks submission only when it is itself required (as the
counterexample shows it then does). -/
theorem renderQuestionInput_unknown_graceful (c : Campaign) (s : FormState)
    (q : CampaignQuestion) :
    (q.type ≠ "text" → q.type ≠ "rating" → q.type ≠ "multiple_choice" →
      q.type ≠ "yes_no" → renderQuestionInput q = none)
  ∧ (c.include_additional_questions = true → c.questions ≠ [] →
      (renderQuestionBlocks c).map QuestionBlock.label
        = c.questions.map CampaignQuestion.text)
  ∧ ((∀ q2 ∈ c.questions, q2.required = true →
        respTruthy s.questionResponses q2.id = true) →
      validateGate (some c) s ≠ some requiredMsg) := by
  refine ⟨?_, ?_, ?_⟩
  · intro h1 h2 h3 h4
    simp [renderQuestionInput, beq_iff_eq, h1, h2, h3, h4]
  · intro hi hne
    have hlen : 0 < c.questions.length := List.length_pos.mpr hne
    simp [renderQuestionBlocks, hi, hlen, List.map_map, Function.comp]
  · intro hall
    have hmr : missingRequired c s.questionResponses = false := by
      simp only [missingRequired, List.any_eq_false]
      intro q2 hq2
      cases hreq : q2.required with
      | false => simp
      | true => simp [hall q2 hq2 hreq]
    have hru : requiredUnanswered (some c) s.questionResponses = false := by
      simp [requiredUnanswered, hmr]
    cases hc2 : (!s.consent) <;>
      cases hn2 : (campNps (some c) && !npsTruthy s.npsScore) <;>
      cases ho2 : (s.localOrderId == "" && s.showOrderInput &&
        campRequireOrderId (some c)) <;>
      simp [validateGate, hc2, hn2, ho2, hru, consentMsg_ne_requiredMsg,
        npsMsg_ne_requiredMsg, orderMsg_ne_requiredMsg]

/-- Witness for C9 (amended): the concrete non-required unrecognized
question gets no input and does not block validation. -/
theorem renderQuestionInput_unknown_graceful_witness :
    renderQuestionInput qSliderOpt = none
  ∧ validateGate (some campUnknownOpt) stateAnsweredKnown ≠ some requiredMsg :=
  ⟨(renderQuestionInput_unknown_graceful campUnknownOpt stateAnsweredKnown
      qSliderOpt).1 (by decide) (by decide) (by decide) (by decide),
   (renderQuestionInput_unknown_graceful campUnknownOpt stateAnsweredKnown
      qSliderOpt).2.2 (by decide)⟩
